import Mathlib

/-!
Shallow embedding of `mini_llm_chat/database_manager.py` and
`mini_llm_chat/auth.py`.

The concrete storage backends (`mini_llm_chat/backends/`) are external to
the two embedded modules; their observable behaviour is parameterised by an
environment (`Env`, `StoreEnv`) recording, for each external call, whether it
succeeds, raises an ordinary `Exception`, or raises `KeyboardInterrupt`
(which Python's `except Exception` clauses do not catch).  A few backend
facts that no environment choice can vary are taken from the specification
and marked `Modelled from the spec:` in their doc comments.
-/

/-- The two backend classes that `DatabaseManager.initialize_backend` can
instantiate: `PostgreSQLBackend` (durable) and `InMemoryBackend` (volatile). -/
inductive BackendKind
  | postgres
  | memory
  deriving DecidableEq

/-- A backend object.  `id` is an allocation counter distinguishing instances
(two calls to a constructor yield distinct objects); `inited` records whether
the second initialization phase (`ensure_database_ready` / `init_db`) has
completed on this object. -/
structure Backend where
  kind : BackendKind
  id : Nat
  inited : Bool
  deriving DecidableEq

/-- The mutable state of a `DatabaseManager`: `self.backend` and
`self._initialized` (src/mini_llm_chat/database_manager.py lines 14-16). -/
structure Mgr where
  backend : Option Backend
  initialized : Bool
  deriving DecidableEq

/-- Outcome of an external call: normal return, `Exception`, or
`KeyboardInterrupt`. -/
inductive Outcome
  | ok
  | exc (msg : String)
  | intr
  deriving DecidableEq

/-- Outcome of `PostgreSQLBackend.ensure_database_ready()`: a Bool result
(`true` = database ready and an admin user exists), or a raise. -/
inductive EnsureOutcome
  | ok (ready : Bool)
  | exc (msg : String)
  | intr
  deriving DecidableEq

/-- Behaviour of the external backend calls made by `initialize_backend` and
`prompt_for_fallback`.  `pgConstruct` is `PostgreSQLBackend(database_url)`,
`pgProbe` is `ensure_postgresql_system_ready()`, `pgEnsureReady` is
`ensure_database_ready()`, `promptAnswer` is the user's y/N answer
(`false` also covers EOF/interrupt, which `prompt_for_fallback` maps to
`False`). -/
structure Env where
  pgConstruct : Outcome
  pgProbe : Outcome
  pgEnsureReady : EnsureOutcome
  promptAnswer : Bool

/-- Observable side effects, used to state that a code path did or did not
reach a given external call. -/
inductive Effect
  | constructPG
  | probePG
  | constructMem
  | ensureReady
  | initDb
  | promptFallback
  | storageOp (name : String)
  deriving DecidableEq

/-- Errors escaping `initialize_backend` / `initialize_database`:
`DatabaseConnectionError`, `ValueError`, or an uncaught `KeyboardInterrupt`. -/
inductive InitErr
  | dbConn (msg : String)
  | valueErr (msg : String)
  | intr
  deriving DecidableEq

/-- Result of one `initialize_backend` call: returned value or raised error,
the manager state afterwards, the next fresh object id, and the trace of
external calls performed. -/
structure InitOut where
  result : Except InitErr Backend
  mgr : Mgr
  nextId : Nat
  trace : List Effect

/-- Second phase of `initialize_backend` (src lines 62-79): run
`ensure_database_ready` when the backend has it (the PostgreSQL backend),
else `init_db`; set `self._initialized = True` on success; wrap any
`Exception` in `DatabaseConnectionError`.  `mgr0` is the manager state on
entry to the phase except that `self.backend` has already been assigned `b`.
Modelled from the spec: only the durable backend exposes
`ensure_database_ready` (section 4.1), and the volatile backend's `init_db`
always succeeds (section 4.2, rule 1: instantiate the volatile backend
directly and transition to READY(volatile)). -/
def initPhase2 (env : Env) (mgr0 : Mgr) (b : Backend) (nid : Nat)
    (tr : List Effect) : InitOut :=
  match b.kind with
  | .postgres =>
    match env.pgEnsureReady with
    | .ok _ready =>
      let b' : Backend := { b with inited := true }
      ⟨.ok b', ⟨some b', true⟩, nid, tr ++ [.ensureReady]⟩
    | .exc m =>
      ⟨.error (.dbConn ("Backend initialization failed: " ++ m)),
        ⟨some b, mgr0.initialized⟩, nid, tr ++ [.ensureReady]⟩
    | .intr =>
      ⟨.error .intr, ⟨some b, mgr0.initialized⟩, nid, tr ++ [.ensureReady]⟩
  | .memory =>
    let b' : Backend := { b with inited := true }
    ⟨.ok b', ⟨some b', true⟩, nid, tr ++ [.initDb]⟩

/-- Embedding of `DatabaseManager.initialize_backend` (src lines 18-79).  The early return
on line 24-25 fires when `self.backend` is set and `self._initialized` holds;
otherwise a backend is selected by `backend_type`, with the PostgreSQL
probe failures handled per the fallback flag (`postgresql`) or always
falling back (`auto`), and an unknown type raising `ValueError`. -/
def initialize_backend (mgr : Mgr) (env : Env) (backend_type : String)
    (fallback_to_memory : Bool) (_database_url : Option String)
    (nid : Nat) : InitOut :=
  match mgr.backend, mgr.initialized with
  | some b, true => ⟨.ok b, mgr, nid, []⟩
  | _, _ =>
    if backend_type = "memory" then
      initPhase2 env mgr ⟨.memory, nid, false⟩ (nid + 1) [.constructMem]
    else if backend_type = "postgresql" then
      match env.pgConstruct with
      | .intr => ⟨.error .intr, mgr, nid, [.constructPG]⟩
      | .exc m =>
        if fallback_to_memory then
          initPhase2 env mgr ⟨.memory, nid, false⟩ (nid + 1)
            [.constructPG, .constructMem]
        else
          ⟨.error (.dbConn ("PostgreSQL initialization failed: " ++ m)),
            mgr, nid, [.constructPG]⟩
      | .ok =>
        let pg : Backend := ⟨.postgres, nid, false⟩
        match env.pgProbe with
        | .intr =>
          ⟨.error .intr, { mgr with backend := some pg }, nid + 1,
            [.constructPG, .probePG]⟩
        | .exc m =>
          if fallback_to_memory then
            initPhase2 env mgr ⟨.memory, nid + 1, false⟩ (nid + 2)
              [.constructPG, .probePG, .constructMem]
          else
            ⟨.error (.dbConn ("PostgreSQL initialization failed: " ++ m)),
              { mgr with backend := some pg }, nid + 1,
              [.constructPG, .probePG]⟩
        | .ok => initPhase2 env mgr pg (nid + 1) [.constructPG, .probePG]
    else if backend_type = "auto" then
      match env.pgConstruct with
      | .intr => ⟨.error .intr, mgr, nid, [.constructPG]⟩
      | .exc _ =>
        initPhase2 env mgr ⟨.memory, nid, false⟩ (nid + 1)
          [.constructPG, .constructMem]
      | .ok =>
        let pg : Backend := ⟨.postgres, nid, false⟩
        match env.pgProbe with
        | .intr =>
          ⟨.error .intr, { mgr with backend := some pg }, nid + 1,
            [.constructPG, .probePG]⟩
        | .exc _ =>
          initPhase2 env mgr ⟨.memory, nid + 1, false⟩ (nid + 2)
            [.constructPG, .probePG, .constructMem]
        | .ok => initPhase2 env mgr pg (nid + 1) [.constructPG, .probePG]
    else
      ⟨.error (.valueErr ("Unknown backend type: " ++ backend_type)),
        mgr, nid, []⟩

/-- Embedding of `DatabaseManager.get_backend` (src lines 81-84): raises `RuntimeError`
unless a backend is set and initialized. -/
def get_backend (mgr : Mgr) : Except String Backend :=
  match mgr.backend, mgr.initialized with
  | some b, true => .ok b
  | _, _ => .error "Database backend not initialized"

/-- Display name of a backend, as returned in `get_backend_info()["name"]`.
Modelled from the spec: the backend info record carries a fixed name per
implementation (section 6). -/
def Backend.infoName : Backend → String
  | ⟨.postgres, _, _⟩ => "PostgreSQL"
  | ⟨.memory, _, _⟩ => "In-Memory"

/-- Embedding of `DatabaseManager.get_backend_info` (src lines 86-92): `name` and the
manager's `initialized` flag. -/
def get_backend_info (mgr : Mgr) : String × Bool :=
  match mgr.backend with
  | none => ("None", false)
  | some b => (b.infoName, mgr.initialized)

/-- Embedding of `initialize_database` (src lines 122-139): delegate to
`initialize_backend`; on `DatabaseConnectionError`, if the interactive
fallback flag is set and the mode is `postgresql` or `auto`, ask the user
and on a yes re-enter in `memory` mode; otherwise re-raise. -/
def initialize_database (mgr : Mgr) (env : Env) (backend_type : String)
    (fallback_to_memory : Bool) (database_url : Option String)
    (interactive_fallback : Bool) (nid : Nat) : InitOut :=
  let o := initialize_backend mgr env backend_type fallback_to_memory
    database_url nid
  match o.result with
  | .error (.dbConn m) =>
    if interactive_fallback ∧
        (backend_type = "postgresql" ∨ backend_type = "auto") then
      if env.promptAnswer then
        let o2 := initialize_backend o.mgr env "memory" false database_url
          o.nextId
        { o2 with trace := o.trace ++ [.promptFallback] ++ o2.trace }
      else
        { result := .error (.dbConn m), mgr := o.mgr, nextId := o.nextId,
          trace := o.trace ++ [.promptFallback] }
    else o
  | _ => o

/-- A user record, as far as the embedded modules observe it.
Modelled from the spec: a User carries a unique username and a role that is
`admin` or `user` (section 3), and `is_admin` means the role is `admin`
(section 4.3: `requireAdmin(user)` succeeds if `user.role == admin` and
`is_admin` is how the code queries that). -/
structure User where
  username : String
  role : String
  deriving DecidableEq

/-- Modelled from the spec: `User.is_admin()` holds exactly when the role is
`admin`. -/
def User.is_admin (u : User) : Bool :=
  u.role = "admin"

/-- Log levels of the `logging` calls made by the embedded modules. -/
inductive LogLevel
  | info
  | warning
  | error
  deriving DecidableEq

/-- Behaviour of the storage operations a published backend provides, one
field per module-level dispatch target in database_manager.py.  The embedded
modules treat these as opaque. -/
structure StoreEnv where
  authUser : Backend → String → String → Option User
  createAdmin : Backend → String → String → String → Bool
  userByToken : Backend → String → Option User
  createConv : Backend → Nat → Option String → Nat
  addMsg : Backend → Nat → String → String → Option Nat → Nat
  getMsgs : Backend → Nat → Option Nat → List (String × String)
  truncMsgs : Backend → Nat → Nat → Bool
  sessionUser : Backend → Option User

/-- The shared shape of the module-level functions of database_manager.py
(src lines 147-181): fetch the published backend via `get_backend`, then run
the storage operation on it.  The trace records whether storage was touched. -/
def dispatch (mgr : Mgr) (opName : String) (op : Backend → α) :
    Except String α × List Effect :=
  match get_backend mgr with
  | .error m => (.error m, [])
  | .ok b => (.ok (op b), [.storageOp opName])

/-- Module-level `authenticate_user` (src lines 152-154). -/
def authenticate_user (mgr : Mgr) (se : StoreEnv) (u p : String) :
    Except String (Option User) × List Effect :=
  dispatch mgr "authenticate_user" (fun b => se.authUser b u p)

/-- Module-level `create_admin_user` (src lines 147-149). -/
def create_admin_user (mgr : Mgr) (se : StoreEnv) (u e p : String) :
    Except String Bool × List Effect :=
  dispatch mgr "create_admin_user" (fun b => se.createAdmin b u e p)

/-- Module-level `get_user_by_token` (src lines 157-159). -/
def get_user_by_token (mgr : Mgr) (se : StoreEnv) (tok : String) :
    Except String (Option User) × List Effect :=
  dispatch mgr "get_user_by_token" (fun b => se.userByToken b tok)

/-- Module-level `create_conversation` (src lines 162-164). -/
def create_conversation (mgr : Mgr) (se : StoreEnv) (uid : Nat)
    (title : Option String) : Except String Nat × List Effect :=
  dispatch mgr "create_conversation" (fun b => se.createConv b uid title)

/-- Module-level `add_message` (src lines 167-171). -/
def add_message (mgr : Mgr) (se : StoreEnv) (cid : Nat) (role content : String)
    (tc : Option Nat) : Except String Nat × List Effect :=
  dispatch mgr "add_message" (fun b => se.addMsg b cid role content tc)

/-- Module-level `get_conversation_messages` (src lines 174-176). -/
def get_conversation_messages (mgr : Mgr) (se : StoreEnv) (cid : Nat)
    (lim : Option Nat) : Except String (List (String × String)) × List Effect :=
  dispatch mgr "get_conversation_messages" (fun b => se.getMsgs b cid lim)

/-- Module-level `truncate_conversation_messages` (src lines 179-181). -/
def truncate_conversation_messages (mgr : Mgr) (se : StoreEnv)
    (cid maxm : Nat) : Except String Bool × List Effect :=
  dispatch mgr "truncate_conversation_messages"
    (fun b => se.truncMsgs b cid maxm)

/-- Module-level `get_session_user` (src lines 184-188): after `get_backend`,
return the backend's session user when the backend has one, else `None`.
Modelled from the spec: only the volatile backend exposes a session user
(section 4.1), so the `hasattr` test holds exactly for the memory backend. -/
def get_session_user (mgr : Mgr) (se : StoreEnv) :
    Except String (Option User) × List Effect :=
  match get_backend mgr with
  | .error m => (.error m, [])
  | .ok b =>
    if b.kind = .memory then (.ok (se.sessionUser b), [.storageOp "get_session_user"])
    else (.ok none, [])

/-- Python's `str.strip()` on the character list: drop whitespace from both
ends (for the ASCII whitespace characters common to Python and Lean). -/
def stripChars (cs : List Char) : List Char :=
  ((cs.dropWhile Char.isWhitespace).reverse.dropWhile Char.isWhitespace).reverse

/-- Python's `str.strip()`. -/
def pyStrip (s : String) : String :=
  String.mk (stripChars s.data)

/-- One interaction event of the interactive prompts in `login_user`:
a line of input, or a `KeyboardInterrupt` during a prompt. -/
inductive Event
  | line (s : String)
  | ctrlC
  deriving DecidableEq

/-- Result of one `authenticate_user(username, password)` call as seen from
`login_user`'s loop: a user, no user (wrong credentials), an `Exception`
(caught by the loop's broad handler), or a `KeyboardInterrupt`. -/
inductive AuthRes
  | user (u : User)
  | noUser
  | raises (msg : String)
  | intr
  deriving DecidableEq

/-- Outcome of `login_user` (src/mini_llm_chat/auth.py lines 24-66):
return `(user, token)`, raise `AuthenticationError` for exhausted attempts,
or raise `AuthenticationError` for a cancellation. -/
inductive LoginResult
  | success (u : User) (token : String)
  | failed
  | cancelled
  deriving DecidableEq

/-- The `while attempts < max_attempts` loop of `login_user` (src lines
31-64), with `a` the current value of `attempts`.  The input stream is
consumed one event per prompt: a blank (after strip) username or an empty
password re-enters the loop without touching `attempts`; a credential pair
rejected by `authenticate_user`, or an `Exception` during the attempt,
increments `attempts`; `KeyboardInterrupt` raises the cancellation error.
An exhausted input stream makes every further `input()` raise `EOFError`,
which the broad handler turns into increments of `attempts` until the loop
exits and raises, so an empty stream yields `.failed` at every `a`.
Modelled from the spec: `generate_token` (the Session Token Issuer, section
4.4) is the pure function `tokFn` and does not raise. -/
def loginLoop (af : String → String → AuthRes) (tokFn : User → String)
    (maxA : Nat) (a : Nat) : List Event → LoginResult
  | [] => .failed
  | .ctrlC :: _ => if a < maxA then .cancelled else .failed
  | .line u :: rest =>
    if a < maxA then
      if pyStrip u = "" then loginLoop af tokFn maxA a rest
      else
        match rest with
        | [] => .failed
        | .ctrlC :: _ => .cancelled
        | .line p :: rest' =>
          if p = "" then loginLoop af tokFn maxA a rest'
          else
            match af (pyStrip u) p with
            | .user usr => .success usr (tokFn usr)
            | .intr => .cancelled
            | _ => loginLoop af tokFn maxA (a + 1) rest'
    else .failed

/-- Embedding of `login_user` (src lines 24-66): run the attempt loop with
`max_attempts = 3` and `attempts = 0`. -/
def login_user (af : String → String → AuthRes) (tokFn : User → String)
    (stream : List Event) : LoginResult :=
  loginLoop af tokFn 3 0 stream

/-- Result of `get_user_by_token(token)` as seen from `login_with_token`:
a user, no user, or an `Exception` caught by its handler. -/
inductive TokenRes
  | user (u : User)
  | noUser
  | raises (msg : String)
  deriving DecidableEq

/-- Embedding of `login_with_token` (src lines 69-80): a user is returned with an info
log; no user yields `None` with a warning log; an `Exception` yields `None`
with an error log.  The function itself never raises. -/
def login_with_token (tokenFn : String → TokenRes) (token : String) :
    Option User × List (LogLevel × String) :=
  match tokenFn token with
  | .user u =>
    (some u, [(.info, "User " ++ u.username ++ " authenticated via token")])
  | .noUser => (none, [(.warning, "Invalid or expired token")])
  | .raises m => (none, [(.error, "Token authentication error: " ++ m)])

/-- Embedding of `require_admin` (src lines 83-88): silent on an admin user, otherwise a
warning log naming the user and an `AuthorizationError`. -/
def require_admin (user : User) : Except String Unit × List (LogLevel × String) :=
  if user.is_admin then (.ok (), [])
  else
    (.error "Admin privileges required",
      [(.warning,
        "User " ++ user.username ++ " attempted admin action without privileges")])

/-- Embedding of `check_permissions` (src lines 185-192): `admin` requires `is_admin`,
`user` always passes, anything else is rejected with a warning log. -/
def check_permissions (user : User) (required_role : String) :
    Bool × List (LogLevel × String) :=
  if required_role = "admin" then (user.is_admin, [])
  else if required_role = "user" then (true, [])
  else (false, [(.warning, "Unknown role requirement: " ++ required_role)])

/-- C5: once a manager holds a backend and is initialized (READY), any
further `initialize_backend` call, with any arguments, returns that same
backend instance, leaves the manager state unchanged, allocates nothing,
and performs no external call at all (empty trace: no probe, no
construction). -/
theorem initialize_backend_idempotent (mgr : Mgr) (b : Backend) (env : Env)
    (ty : String) (fb : Bool) (url : Option String) (nid : Nat)
    (hb : mgr.backend = some b) (hi : mgr.initialized = true) :
    initialize_backend mgr env ty fb url nid = ⟨.ok b, mgr, nid, []⟩ := by
  unfold initialize_backend
  rw [hb, hi]

/-- Witness for `initialize_backend_idempotent` at a concrete READY
manager. -/
theorem initialize_backend_idempotent_witness :
    initialize_backend ⟨some ⟨.postgres, 7, true⟩, true⟩
        ⟨.exc "down", .exc "down", .exc "down", false⟩ "auto" true none 9 =
      ⟨.ok ⟨.postgres, 7, true⟩, ⟨some ⟨.postgres, 7, true⟩, true⟩, 9, []⟩ :=
  initialize_backend_idempotent _ _ _ _ _ _ _ rfl rfl

/-- C6: `login_with_token` never raises; a token that verifies to no user
yields `none` with a warning (not an error) log, a token that verifies to a
user yields exactly that user with an info log, and even an `Exception`
from the lookup is caught and yields `none`. -/
theorem login_with_token_cases (tokenFn : String → TokenRes) (tok : String) :
    (tokenFn tok = .noUser →
      login_with_token tokenFn tok =
        (none, [(.warning, "Invalid or expired token")])) ∧
    (∀ u, tokenFn tok = .user u →
      login_with_token tokenFn tok =
        (some u, [(.info, "User " ++ u.username ++ " authenticated via token")])) ∧
    (∀ m, tokenFn tok = .raises m → (login_with_token tokenFn tok).1 = none) := by
  refine ⟨fun h => ?_, fun u h => ?_, fun m h => ?_⟩ <;>
    simp [login_with_token, h]

/-- Witness for `login_with_token_cases` at a concrete token function. -/
theorem login_with_token_cases_witness :
    login_with_token
        (fun t => if t = "good" then .user ⟨"alice", "user"⟩ else .noUser)
        "expired" = (none, [(.warning, "Invalid or expired token")]) ∧
    login_with_token
        (fun t => if t = "good" then .user ⟨"alice", "user"⟩ else .noUser)
        "good" =
      (some ⟨"alice", "user"⟩,
        [(.info, "User " ++ "alice" ++ " authenticated via token")]) :=
  ⟨(login_with_token_cases _ _).1 (by decide),
    (login_with_token_cases _ _).2.1 ⟨"alice", "user"⟩ (by decide)⟩

/-- C7: `check_permissions` is a total boolean function: for `admin` it
returns the user's admin status, for `user` it returns true for every user,
and for any other role string it returns false with a configuration
warning logged. -/
theorem check_permissions_cases (u : User) (r : String) :
    check_permissions u "admin" = (u.is_admin, []) ∧
    check_permissions u "user" = (true, []) ∧
    (r ≠ "admin" → r ≠ "user" →
      check_permissions u r =
        (false, [(.warning, "Unknown role requirement: " ++ r)])) := by
  refine ⟨rfl, rfl, fun h1 h2 => ?_⟩
  simp [check_permissions, h1, h2]

/-- Witness for `check_permissions_cases` at a concrete user and role. -/
theorem check_permissions_cases_witness :
    check_permissions ⟨"bob", "user"⟩ "operator" =
      (false, [(.warning, "Unknown role requirement: " ++ "operator")]) :=
  (check_permissions_cases ⟨"bob", "user"⟩ "operator").2.2 (by decide)
    (by decide)

/-- C8: `require_admin` returns silently, logging nothing, for a user whose
role is admin, and raises `AuthorizationError` with a warning log naming the
offending username for any user whose role is not admin. -/
theorem require_admin_cases (u : User) :
    (u.role = "admin" → require_admin u = (.ok (), [])) ∧
    (u.role ≠ "admin" →
      require_admin u =
        (.error "Admin privileges required",
          [(.warning,
            "User " ++ u.username ++
              " attempted admin action without privileges")])) := by
  constructor <;> intro h <;> simp [require_admin, User.is_admin, h]

/-- Witness for `require_admin_cases` at concrete users. -/
theorem require_admin_cases_witness :
    require_admin ⟨"root", "admin"⟩ = (.ok (), []) ∧
    require_admin ⟨"eve", "user"⟩ =
      (.error "Admin privileges required",
        [(.warning,
          "User " ++ "eve" ++ " attempted admin action without privileges")]) :=
  ⟨(require_admin_cases ⟨"root", "admin"⟩).1 rfl,
    (require_admin_cases ⟨"eve", "user"⟩).2 (by decide)⟩

/-- A manager with no backend set, or whose backend never finished
initialization, publishes nothing: `get_backend` raises. -/
lemma get_backend_not_ready (mgr : Mgr)
    (h : mgr.backend = none ∨ mgr.initialized = false) :
    get_backend mgr = .error "Database backend not initialized" := by
  obtain ⟨ob, ini⟩ := mgr
  rcases h with h | h
  · simp only at h
    subst h
    cases ini <;> rfl
  · simp only at h
    subst h
    cases ob <;> rfl

/-- C10: whenever no backend initialization has completed (backend unset or
the initialized flag false), every module-level dispatch operation of
database_manager.py returns the `RuntimeError` from `get_backend` and its
trace is empty: storage is never touched. -/
theorem dispatch_requires_ready (mgr : Mgr) (se : StoreEnv)
    (u e p tok role content : String) (uid cid maxm : Nat)
    (title : Option String) (tc lim : Option Nat)
    (h : mgr.backend = none ∨ mgr.initialized = false) :
    authenticate_user mgr se u p =
      (.error "Database backend not initialized", []) ∧
    create_admin_user mgr se u e p =
      (.error "Database backend not initialized", []) ∧
    get_user_by_token mgr se tok =
      (.error "Database backend not initialized", []) ∧
    create_conversation mgr se uid title =
      (.error "Database backend not initialized", []) ∧
    add_message mgr se cid role content tc =
      (.error "Database backend not initialized", []) ∧
    get_conversation_messages mgr se cid lim =
      (.error "Database backend not initialized", []) ∧
    truncate_conversation_messages mgr se cid maxm =
      (.error "Database backend not initialized", []) ∧
    get_session_user mgr se =
      (.error "Database backend not initialized", []) := by
  have hg := get_backend_not_ready mgr h
  refine ⟨?_, ?_, ?_, ?_, ?_, ?_, ?_, ?_⟩ <;>
    simp [authenticate_user, create_admin_user, get_user_by_token,
      create_conversation, add_message, get_conversation_messages,
      truncate_conversation_messages, get_session_user, dispatch, hg]

/-- Witness for `dispatch_requires_ready` at the fresh manager and a
concrete store environment. -/
theorem dispatch_requires_ready_witness :
    authenticate_user ⟨none, false⟩
        ⟨fun _ _ _ => none, fun _ _ _ _ => false, fun _ _ => none,
          fun _ _ _ => 0, fun _ _ _ _ _ => 0, fun _ _ _ => [],
          fun _ _ _ => false, fun _ => none⟩ "alice" "pw" =
      (.error "Database backend not initialized", []) ∧
    get_session_user ⟨none, false⟩
        ⟨fun _ _ _ => none, fun _ _ _ _ => false, fun _ _ => none,
          fun _ _ _ => 0, fun _ _ _ _ _ => 0, fun _ _ _ => [],
          fun _ _ _ => false, fun _ => none⟩ =
      (.error "Database backend not initialized", []) :=
  ⟨(dispatch_requires_ready ⟨none, false⟩ _ "alice" "x" "pw" "t" "r" "c"
      0 0 0 none none none (Or.inl rfl)).1,
    (dispatch_requires_ready ⟨none, false⟩ _ "alice" "x" "pw" "t" "r" "c"
      0 0 0 none none none (Or.inl rfl)).2.2.2.2.2.2.2⟩

/-- C1 counterexample: in `auto` mode with an unreachable connection string
(the PostgreSQL constructor raises) and the fallback flag DISABLED, the call
does not fail: both `initialize_backend` and `initialize_database` return
the volatile in-memory backend and leave the manager READY(volatile),
because the `auto` branch never consults `fallback_to_memory`. -/
theorem auto_no_fallback_flag_counterexample :
    (initialize_backend ⟨none, false⟩
        ⟨.exc "connection refused", .ok, .ok true, false⟩ "auto" false
        none 0).result = .ok ⟨.memory, 0, true⟩ ∧
    (initialize_backend ⟨none, false⟩
        ⟨.exc "connection refused", .ok, .ok true, false⟩ "auto" false
        none 0).mgr = ⟨some ⟨.memory, 0, true⟩, true⟩ ∧
    (initialize_database ⟨none, false⟩
        ⟨.exc "connection refused", .ok, .ok true, false⟩ "auto" false
        none false 0).result = .ok ⟨.memory, 0, true⟩ :=
  ⟨rfl, rfl, rfl⟩

/-- C1 (amended): in `auto` mode with an unreachable connection string (the
constructor or the system-readiness probe raises an `Exception`), the call
ends with the volatile in-memory backend active and the manager
READY(volatile), REGARDLESS of the fallback flag; no
`BackendInitializationFailure` is raised. -/
theorem auto_unreachable_ends_volatile (mgr : Mgr) (env : Env) (fb : Bool)
    (url : Option String) (nid : Nat) (m : String)
    (hnr : mgr.backend = none ∨ mgr.initialized = false)
    (hpg : env.pgConstruct = .exc m ∨
      (env.pgConstruct = .ok ∧ env.pgProbe = .exc m)) :
    ∃ b, (initialize_backend mgr env "auto" fb url nid).result = .ok b ∧
      b.kind = .memory ∧
      (initialize_backend mgr env "auto" fb url nid).mgr = ⟨some b, true⟩ := by
  obtain ⟨ob, ini⟩ := mgr
  obtain ⟨pc, pp, per, pa⟩ := env
  simp only at hpg
  have hred : ∀ o : InitOut,
      initialize_backend ⟨ob, ini⟩ ⟨pc, pp, per, pa⟩ "auto" fb url nid = o →
      ∃ b, o.result = .ok b ∧ b.kind = .memory ∧ o.mgr = ⟨some b, true⟩ := by
    intro o ho
    rcases hnr with h | h <;> simp only at h <;> subst h <;>
      rcases hpg with h2 | ⟨h2, h3⟩ <;> subst h2 <;> try subst h3
    all_goals
      simp only [initialize_backend, initPhase2, reduceIte] at ho
    all_goals exact ho ▸ ⟨_, rfl, rfl, rfl⟩
  exact hred _ rfl

/-- Witness for `auto_unreachable_ends_volatile` at a concrete manager and
environment. -/
theorem auto_unreachable_ends_volatile_witness :
    ∃ b, (initialize_backend ⟨none, false⟩
        ⟨.ok, .exc "server closed the connection", .ok true, false⟩
        "auto" true none 0).result = .ok b ∧
      b.kind = .memory ∧
      (initialize_backend ⟨none, false⟩
        ⟨.ok, .exc "server closed the connection", .ok true, false⟩
        "auto" true none 0).mgr = ⟨some b, true⟩ :=
  auto_unreachable_ends_volatile ⟨none, false⟩
    ⟨.ok, .exc "server closed the connection", .ok true, false⟩ true none 0
    "server closed the connection" (Or.inl rfl) (Or.inr ⟨rfl, rfl⟩)

/-- C4: in `postgresql` mode, a failure of the constructor or of the
system-readiness probe with fallback disabled raises
`DatabaseConnectionError` carrying the underlying cause and the in-memory
backend is never constructed; the same failure with fallback enabled ends
with the volatile in-memory backend active and the manager READY. -/
theorem postgresql_probe_failure (mgr : Mgr) (env : Env) (url : Option String)
    (nid : Nat) (m : String)
    (hnr : mgr.backend = none ∨ mgr.initialized = false)
    (hpg : env.pgConstruct = .exc m ∨
      (env.pgConstruct = .ok ∧ env.pgProbe = .exc m)) :
    ((initialize_backend mgr env "postgresql" false url nid).result =
        .error (.dbConn ("PostgreSQL initialization failed: " ++ m)) ∧
      Effect.constructMem ∉
        (initialize_backend mgr env "postgresql" false url nid).trace) ∧
    (∃ b, (initialize_backend mgr env "postgresql" true url nid).result =
        .ok b ∧ b.kind = .memory ∧
      (initialize_backend mgr env "postgresql" true url nid).mgr =
        ⟨some b, true⟩) := by
  obtain ⟨ob, ini⟩ := mgr
  obtain ⟨pc, pp, per, pa⟩ := env
  simp only at hpg
  constructor
  · rcases hnr with h | h <;> simp only at h <;> subst h <;>
      rcases hpg with h2 | ⟨h2, h3⟩ <;> subst h2 <;> try subst h3
    all_goals
      refine ⟨?_, ?_⟩ <;>
        simp [initialize_backend, initPhase2]
  · have hred : ∀ o : InitOut,
        initialize_backend ⟨ob, ini⟩ ⟨pc, pp, per, pa⟩ "postgresql" true url
          nid = o →
        ∃ b, o.result = .ok b ∧ b.kind = .memory ∧ o.mgr = ⟨some b, true⟩ := by
      intro o ho
      rcases hnr with h | h <;> simp only at h <;> subst h <;>
        rcases hpg with h2 | ⟨h2, h3⟩ <;> subst h2 <;> try subst h3
      all_goals
        simp only [initialize_backend, initPhase2, reduceIte] at ho
      all_goals exact ho ▸ ⟨_, rfl, rfl, rfl⟩
    exact hred _ rfl

/-- Witness for `postgresql_probe_failure` at a concrete manager and
environment. -/
theorem postgresql_probe_failure_witness :
    ((initialize_backend ⟨none, false⟩
        ⟨.exc "could not connect", .ok, .ok true, false⟩ "postgresql" false
        none 0).result =
      .error (.dbConn ("PostgreSQL initialization failed: " ++
        "could not connect")) ∧
      Effect.constructMem ∉
        (initialize_backend ⟨none, false⟩
          ⟨.exc "could not connect", .ok, .ok true, false⟩ "postgresql" false
          none 0).trace) ∧
    (∃ b, (initialize_backend ⟨none, false⟩
        ⟨.exc "could not connect", .ok, .ok true, false⟩ "postgresql" true
        none 0).result = .ok b ∧ b.kind = .memory ∧
      (initialize_backend ⟨none, false⟩
        ⟨.exc "could not connect", .ok, .ok true, false⟩ "postgresql" true
        none 0).mgr = ⟨some b, true⟩) :=
  postgresql_probe_failure ⟨none, false⟩
    ⟨.exc "could not connect", .ok, .ok true, false⟩ none 0
    "could not connect" (Or.inl rfl) (Or.inl rfl)

/-- Once the attempt budget is exhausted the loop raises regardless of the
remaining input. -/
lemma loginLoop_exhausted {af : String → String → AuthRes}
    {tf : User → String} {maxA a : Nat} (evs : List Event)
    (h : ¬ a < maxA) : loginLoop af tf maxA a evs = .failed := by
  cases evs with
  | nil => rfl
  | cons e rest =>
    cases e <;> rw [loginLoop.eq_def] <;> simp [h]

/-- A username that is blank after stripping re-enters the loop without
touching the attempts counter or the rest of the stream. -/
lemma loginLoop_blank_user {af : String → String → AuthRes}
    {tf : User → String} {maxA a : Nat} {u : String} {rest : List Event}
    (hu : pyStrip u = "") :
    loginLoop af tf maxA a (.line u :: rest) = loginLoop af tf maxA a rest := by
  by_cases ha : a < maxA
  · rw [loginLoop.eq_def]
    simp [ha, hu]
  · rw [loginLoop_exhausted _ ha, loginLoop_exhausted _ ha]

/-- An empty password re-enters the loop without touching the attempts
counter. -/
lemma loginLoop_blank_password {af : String → String → AuthRes}
    {tf : User → String} {maxA a : Nat} {u p : String} {rest : List Event}
    (hu : pyStrip u ≠ "") (hp : p = "") :
    loginLoop af tf maxA a (.line u :: .line p :: rest) =
      loginLoop af tf maxA a rest := by
  by_cases ha : a < maxA
  · rw [loginLoop.eq_def]
    simp [ha, hu, hp]
  · rw [loginLoop_exhausted _ ha, loginLoop_exhausted _ ha]

/-- A non-empty credential pair rejected by `authenticate_user`, or an
`Exception` during the attempt, consumes exactly one attempt. -/
lemma loginLoop_bad_attempt {af : String → String → AuthRes}
    {tf : User → String} {maxA a : Nat} {u p : String} {rest : List Event}
    (hu : pyStrip u ≠ "") (hp : p ≠ "")
    (hres : af (pyStrip u) p = .noUser ∨ ∃ m, af (pyStrip u) p = .raises m) :
    loginLoop af tf maxA a (.line u :: .line p :: rest) =
      loginLoop af tf maxA (a + 1) rest := by
  by_cases ha : a < maxA
  · rw [loginLoop.eq_def]
    rcases hres with h | ⟨m, h⟩ <;> simp [ha, hu, hp, h]
  · rw [loginLoop_exhausted _ ha, loginLoop_exhausted _ (by omega)]

/-- A non-empty credential pair accepted by `authenticate_user` returns the
user and a token while attempts remain. -/
lemma loginLoop_success {af : String → String → AuthRes}
    {tf : User → String} {maxA a : Nat} {u p : String} {usr : User}
    {rest : List Event} (ha : a < maxA) (hu : pyStrip u ≠ "")
    (hp : p ≠ "") (h : af (pyStrip u) p = .user usr) :
    loginLoop af tf maxA a (.line u :: .line p :: rest) =
      .success usr (tf usr) := by
  rw [loginLoop.eq_def]
  simp [ha, hu, hp, h]

/-- Any number of blank-username lines is skipped without consuming the
attempt budget. -/
lemma loginLoop_replicate_blank {af : String → String → AuthRes}
    {tf : User → String} {maxA a : Nat} (n : Nat) (rest : List Event) :
    loginLoop af tf maxA a (List.replicate n (.line "") ++ rest) =
      loginLoop af tf maxA a rest := by
  induction n with
  | zero => simp
  | succ k ih =>
    rw [List.replicate_succ, List.cons_append,
      loginLoop_blank_user (by decide), ih]

/-- C2: in `login_user` each rejected non-empty credential pair consumes one
attempt from a budget of 3; after three consecutive bad attempts the call
raises `AuthenticationError` without reading any further input (so the
failure is not recoverable within the call), and a correct pair on the
third attempt still succeeds, so the failure is never raised earlier. -/
theorem login_attempt_budget (af : String → String → AuthRes)
    (tf : User → String) (u1 p1 u2 p2 u3 p3 : String)
    (hu1 : pyStrip u1 ≠ "") (hp1 : p1 ≠ "")
    (hu2 : pyStrip u2 ≠ "") (hp2 : p2 ≠ "")
    (hu3 : pyStrip u3 ≠ "") (hp3 : p3 ≠ "")
    (h1 : af (pyStrip u1) p1 = .noUser) (h2 : af (pyStrip u2) p2 = .noUser) :
    (af (pyStrip u3) p3 = .noUser → ∀ rest,
      login_user af tf (.line u1 :: .line p1 :: .line u2 :: .line p2 ::
        .line u3 :: .line p3 :: rest) = .failed) ∧
    (∀ usr, af (pyStrip u3) p3 = .user usr →
      login_user af tf [.line u1, .line p1, .line u2, .line p2,
        .line u3, .line p3] = .success usr (tf usr)) := by
  constructor
  · intro h3 rest
    unfold login_user
    rw [loginLoop_bad_attempt hu1 hp1 (Or.inl h1),
      loginLoop_bad_attempt hu2 hp2 (Or.inl h2),
      loginLoop_bad_attempt hu3 hp3 (Or.inl h3),
      loginLoop_exhausted _ (by omega)]
  · intro usr h3
    unfold login_user
    rw [loginLoop_bad_attempt hu1 hp1 (Or.inl h1),
      loginLoop_bad_attempt hu2 hp2 (Or.inl h2),
      loginLoop_success (by omega) hu3 hp3 h3]

/-- Witness for `login_attempt_budget` at a concrete authenticator: three
wrong passwords fail, two wrong passwords followed by the right one
succeed. -/
theorem login_attempt_budget_witness :
    login_user
        (fun u p => if u = "alice" ∧ p = "pw" then .user ⟨"alice", "user"⟩
          else .noUser)
        (fun u => u.username ++ "-token")
        [.line "alice", .line "bad1", .line "alice", .line "bad2",
          .line "alice", .line "bad3"] = .failed ∧
    login_user
        (fun u p => if u = "alice" ∧ p = "pw" then .user ⟨"alice", "user"⟩
          else .noUser)
        (fun u => u.username ++ "-token")
        [.line "alice", .line "bad1", .line "alice", .line "bad2",
          .line "alice", .line "pw"] =
      .success ⟨"alice", "user"⟩ ("alice" ++ "-token") :=
  ⟨(login_attempt_budget _ _ "alice" "bad1" "alice" "bad2" "alice" "bad3"
      (by decide) (by decide) (by decide) (by decide) (by decide) (by decide)
      (by decide) (by decide)).1 (by decide) [],
    (login_attempt_budget _ _ "alice" "bad1" "alice" "bad2" "alice" "pw"
      (by decide) (by decide) (by decide) (by decide) (by decide) (by decide)
      (by decide) (by decide)).2 ⟨"alice", "user"⟩ (by decide)⟩

/-- C9: an iteration of `login_user` whose stripped username or whose
password is empty leaves the attempts counter unchanged (the loop is
therefore not bounded for a stream of blank credentials: any number of
blank lines is absorbed); only a non-empty pair rejected by
`authenticate_user`, or an `Exception` during the attempt, consumes an
attempt. -/
theorem login_blank_inputs_free (af : String → String → AuthRes)
    (tf : User → String) :
    (∀ a u (rest : List Event), pyStrip u = "" →
      loginLoop af tf 3 a (.line u :: rest) = loginLoop af tf 3 a rest) ∧
    (∀ a u p (rest : List Event), pyStrip u ≠ "" → p = "" →
      loginLoop af tf 3 a (.line u :: .line p :: rest) =
        loginLoop af tf 3 a rest) ∧
    (∀ n a (rest : List Event),
      loginLoop af tf 3 a (List.replicate n (.line "") ++ rest) =
        loginLoop af tf 3 a rest) ∧
    (∀ a u p (rest : List Event), pyStrip u ≠ "" → p ≠ "" →
      (af (pyStrip u) p = .noUser ∨ ∃ m, af (pyStrip u) p = .raises m) →
      loginLoop af tf 3 a (.line u :: .line p :: rest) =
        loginLoop af tf 3 (a + 1) rest) :=
  ⟨fun _ _ _ hu => loginLoop_blank_user hu,
    fun _ _ _ _ hu hp => loginLoop_blank_password hu hp,
    fun n _ rest => loginLoop_replicate_blank n rest,
    fun _ _ _ _ hu hp hres => loginLoop_bad_attempt hu hp hres⟩

/-- Witness for `login_blank_inputs_free`: five blank usernames are absorbed
without consuming the budget, and a blank password iteration is free. -/
theorem login_blank_inputs_free_witness :
    loginLoop (fun _ _ => .noUser) (fun _ => "t") 3 0
        (List.replicate 5 (.line "") ++ [.ctrlC]) =
      loginLoop (fun _ _ => .noUser) (fun _ => "t") 3 0 [.ctrlC] ∧
    loginLoop (fun _ _ => .noUser) (fun _ => "t") 3 2
        [.line "bob", .line ""] =
      loginLoop (fun _ _ => .noUser) (fun _ => "t") 3 2 [] :=
  ⟨(login_blank_inputs_free _ _).2.2.1 5 0 [.ctrlC],
    (login_blank_inputs_free _ _).2.1 2 "bob" "" [] (by decide) (by decide)⟩

/-- A well-formed manager state: whenever the initialized flag is set, a
backend is installed and that backend completed its initialization phase.
This holds for the fresh manager and, as `initialize_backend_atomic` shows,
is preserved by every initialization call. -/
def MgrInv (mgr : Mgr) : Prop :=
  mgr.initialized = true → ∃ b, mgr.backend = some b ∧ b.inited = true

/-- On a manager whose initialized flag is clear, `initialize_backend`
either commits fully or leaves the flag clear when it raises. -/
lemma initialize_backend_cases (ob : Option Backend) (env : Env) (ty : String)
    (fb : Bool) (url : Option String) (nid : Nat) :
    (∃ b', (initialize_backend ⟨ob, false⟩ env ty fb url nid).result =
        .ok b' ∧
      (initialize_backend ⟨ob, false⟩ env ty fb url nid).mgr =
        ⟨some b', true⟩ ∧
      b'.inited = true) ∨
    (∃ e, (initialize_backend ⟨ob, false⟩ env ty fb url nid).result =
        .error e ∧
      (initialize_backend ⟨ob, false⟩ env ty fb url nid).mgr.initialized =
        false) := by
  obtain ⟨pc, pp, per, pa⟩ := env
  by_cases h1 : ty = "memory"
  · subst h1
    cases ob <;> cases per <;> exact Or.inl ⟨_, rfl, rfl, rfl⟩
  · by_cases h2 : ty = "postgresql"
    · subst h2
      cases ob <;> cases pc <;> cases pp <;> cases fb <;> cases per <;>
        first
          | exact Or.inl ⟨_, rfl, rfl, rfl⟩
          | exact Or.inr ⟨_, rfl, rfl⟩
    · by_cases h3 : ty = "auto"
      · subst h3
        cases ob <;> cases pc <;> cases pp <;> cases per <;>
          first
            | exact Or.inl ⟨_, rfl, rfl, rfl⟩
            | exact Or.inr ⟨_, rfl, rfl⟩
      · cases ob <;>
          · simp only [initialize_backend, if_neg h1, if_neg h2, if_neg h3]
            exact Or.inr ⟨_, rfl, trivial⟩

/-- C3: initialization is all-or-nothing with respect to the published
state.  Starting from any well-formed manager, after any
`initialize_backend` call the manager is still well-formed; if the call
returned a backend then that backend completed initialization and is
exactly what `get_backend` now publishes; and if the call raised then
`get_backend` still raises afterwards exactly as it did before the call —
a backend whose initialization did not complete is never published. -/
theorem initialize_backend_atomic (mgr : Mgr) (env : Env) (ty : String)
    (fb : Bool) (url : Option String) (nid : Nat) (hInv : MgrInv mgr) :
    MgrInv (initialize_backend mgr env ty fb url nid).mgr ∧
    (∀ b, (initialize_backend mgr env ty fb url nid).result = .ok b →
      get_backend (initialize_backend mgr env ty fb url nid).mgr = .ok b ∧
      b.inited = true) ∧
    (∀ e, (initialize_backend mgr env ty fb url nid).result = .error e →
      get_backend (initialize_backend mgr env ty fb url nid).mgr =
        .error "Database backend not initialized" ∧
      get_backend mgr = .error "Database backend not initialized") := by
  obtain ⟨ob, ini⟩ := mgr
  cases ini with
  | true =>
    cases ob with
    | none =>
      obtain ⟨b0, hb0, _⟩ := hInv rfl
      exact absurd hb0 (by simp)
    | some b =>
      obtain ⟨b0, hb0, hin⟩ := hInv rfl
      obtain rfl : b = b0 := Option.some.inj hb0
      have heq : initialize_backend ⟨some b, true⟩ env ty fb url nid =
          ⟨.ok b, ⟨some b, true⟩, nid, []⟩ := rfl
      rw [heq]
      refine ⟨fun _ => ⟨b, rfl, hin⟩, fun b' h => ?_, fun e h => ?_⟩
      · obtain rfl : b = b' := by
          simpa using h
        exact ⟨rfl, hin⟩
      · exact absurd h (by simp)
  | false =>
    rcases initialize_backend_cases ob env ty fb url nid with
      ⟨b', hres, hmgr, hinit⟩ | ⟨e, hres, hinit⟩
    · refine ⟨?_, fun b h => ?_, fun e' h => ?_⟩
      · rw [hmgr]
        exact fun _ => ⟨b', rfl, hinit⟩
      · rw [hres] at h
        obtain rfl : b' = b := by simpa using h
        rw [hmgr]
        exact ⟨rfl, hinit⟩
      · rw [hres] at h
        exact absurd h (by simp)
    · refine ⟨?_, fun b h => ?_, fun e' h => ?_⟩
      · intro htr
        rw [htr] at hinit
        exact absurd hinit (by simp)
      · rw [hres] at h
        exact absurd h (by simp)
      · exact ⟨get_backend_not_ready _ (Or.inr hinit),
          get_backend_not_ready _ (Or.inr rfl)⟩

/-- Witness for `initialize_backend_atomic` at the fresh manager (which is
well-formed) and an environment whose readiness probe raises. -/
theorem initialize_backend_atomic_witness :
    get_backend
      (initialize_backend ⟨none, false⟩
        ⟨.ok, .exc "network unreachable", .ok true, false⟩ "postgresql" false
        none 0).mgr = .error "Database backend not initialized" ∧
    get_backend ⟨none, false⟩ = .error "Database backend not initialized" :=
  (initialize_backend_atomic ⟨none, false⟩
      ⟨.ok, .exc "network unreachable", .ok true, false⟩ "postgresql" false
      none 0 (fun h => absurd h (by simp))).2.2
    (.dbConn ("PostgreSQL initialization failed: " ++ "network unreachable"))
    rfl
